import Mathlib

/-!
Verification of the authentication/session service of the repository
`alx-backend-user-data` against its natural-language specification.

The embedding models:
- `0x00-personal_data/encrypt_password.py` (`hash_password`, `is_valid`),
- `0x03-user_authentication_service/user.py` (the `User` record),
- `0x03-user_authentication_service/db.py` (`DB.add_user`,
  `DB.find_user_by`, `DB.update_user`), with the database table as a
  `List User` in insertion order (SQLAlchemy `.first()` = first element in
  order),
- `0x03-user_authentication_service/auth.py` (the `Auth` class methods),
- `0x02-Session_authentication/api/v1/auth/auth.py` (path exemption and
  credential extraction) and `api/v1/app.py` (`before_request`).

Randomness is threaded explicitly: `bcrypt.gensalt()` becomes a `salt : Nat`
argument and `_generate_uuid()` becomes a `fresh : String` argument, so each
operation is a pure function of the store, its inputs, and the random draw.

Python exceptions are modelled with `Except`: `ValueError` and SQLAlchemy's
`NoResultFound` become `PyErr`; a `try/except NoResultFound` in the source
becomes a `match` on the model's `Option`/`Except` result.
-/

namespace AlxAuth

/-- Python exception kinds raised by the modelled code: `ValueError msg`
(raised by `Auth` methods and by the bcrypt library) and SQLAlchemy's
`NoResultFound` (raised by `DB.find_user_by` when no row matches). -/
inductive PyErr where
  | valueError (msg : String)
  | noResultFound
  deriving DecidableEq, Repr

/-- Model of a bcrypt hash blob, the byte string handled by the external
`bcrypt` library. A well-formed blob `bcrypt salt digest` embeds the salt it
was produced with and (idealizing bcrypt as a collision-free keyed digest,
per the hasher contract of spec section 4.1) determines the password that
produced it. `malformed raw` stands for any byte sequence that is not a
well-formed bcrypt hash. -/
inductive HashBlob where
  | bcrypt (salt : Nat) (digest : String)
  | malformed (raw : String)
  deriving DecidableEq, Repr

/-- Model of the external `bcrypt.hashpw(password, salt)`: produces a
well-formed blob embedding the salt; the digest is idealized as injective in
the password for a fixed salt (spec section 4.1: salted one-way hash). -/
def hashpw (password : String) (salt : Nat) : HashBlob :=
  .bcrypt salt password

/-- Model of the external `bcrypt.checkpw(password, hash)`: re-hashes the
password with the salt embedded in the blob and compares. On a byte sequence
that is not a well-formed bcrypt hash, the pyca/bcrypt library raises
`ValueError("Invalid salt")` (from the internal `hashpw` call); the model
returns that error. -/
def checkpw (password : String) (h : HashBlob) : Except PyErr Bool :=
  match h with
  | .bcrypt _ digest => .ok (digest == password)
  | .malformed _ => .error (.valueError "Invalid salt")

/-- `hash_password` from `0x00-personal_data/encrypt_password.py`:
`bcrypt.hashpw(password.encode('utf-8'), bcrypt.gensalt())`, with the random
salt threaded as an explicit argument. -/
def hash_password (password : String) (salt : Nat) : HashBlob :=
  hashpw password salt

/-- `is_valid` from `0x00-personal_data/encrypt_password.py`:
`bcrypt.checkpw(password.encode('utf-8'), hashed_password)`. Any exception
from the library propagates (the source has no try/except). -/
def is_valid (hashed_password : HashBlob) (password : String) : Except PyErr Bool :=
  checkpw password hashed_password

/-- The `User` record of `0x03-user_authentication_service/user.py`: columns
`id` (integer primary key), `email` (required), `hashed_password` (required),
`session_id` (nullable), `reset_token` (nullable). -/
structure User where
  id : Nat
  email : String
  hashed_password : HashBlob
  session_id : Option String := none
  reset_token : Option String := none
  deriving DecidableEq, Repr

/-- The `users` table of `db.py`, in insertion order. -/
abbrev DBState := List User

/-- SQLite's rowid assignment for the autoincrementing primary key: one more
than the largest id in the table. -/
def nextId (db : DBState) : Nat :=
  db.foldl (fun m u => max m u.id) 0 + 1

/-- `DB.add_user` from `db.py`: constructs a `User` with the given email and
hashed password and commits it. The table has no unique constraint on
`email`, so the insert itself never fails on a duplicate. -/
def add_user (db : DBState) (email : String) (hp : HashBlob) : User × DBState :=
  let u : User := { id := nextId db, email := email, hashed_password := hp }
  (u, db ++ [u])

/-- `DB.find_user_by(email=...)`: first row whose `email` column equals the
value (`NoResultFound`, i.e. `none`, when no row matches). -/
def find_user_by_email (db : DBState) (email : String) : Option User :=
  db.find? (fun u => u.email == email)

/-- `DB.find_user_by(session_id=s)` for a string `s`: first row whose
`session_id` column equals `s` (a SQL NULL column never equals a string). -/
def find_user_by_sid (db : DBState) (sid : String) : Option User :=
  db.find? (fun u => u.session_id == some sid)

/-- `DB.find_user_by(reset_token=t)` for a string `t`: first row whose
`reset_token` column equals `t`. -/
def find_user_by_reset (db : DBState) (tok : String) : Option User :=
  db.find? (fun u => u.reset_token == some tok)

/-- `DB.find_user_by(id=i)`: first row whose `id` column equals `i`. -/
def find_user_by_id (db : DBState) (uid : Nat) : Option User :=
  db.find? (fun u => u.id == uid)

/-- The keyword arguments accepted by `DB.update_user`: an absent field
(`none`) is left untouched, a given field (`some v`) is overwritten with `v`,
including explicit clears (`some none` for the nullable columns). -/
structure UserUpdate where
  hashed_password : Option HashBlob := none
  session_id : Option (Option String) := none
  reset_token : Option (Option String) := none

/-- Application of a `UserUpdate` to one row. -/
def applyUpdate (upd : UserUpdate) (u : User) : User :=
  { u with
    hashed_password := upd.hashed_password.getD u.hashed_password
    session_id := upd.session_id.getD u.session_id
    reset_token := upd.reset_token.getD u.reset_token }

/-- The keyword argument set `session_id=s` passed to `update_user` by
`create_session` (a fresh token) and `destroy_session` (`None`). -/
def sessionUpd (s : Option String) : UserUpdate :=
  { session_id := some s }

/-- The keyword argument set `reset_token=t` passed to `update_user` by
`get_reset_password_token`. -/
def resetUpd (t : Option String) : UserUpdate :=
  { reset_token := some t }

/-- The keyword argument set `hashed_password=h, reset_token=None` passed to
`update_user` by `update_password`. -/
def passwordResetUpd (h : HashBlob) : UserUpdate :=
  { hashed_password := some h, reset_token := some none }

/-- The per-row effect of `DB.update_user`: rows whose `id` matches are
rewritten by the update, all others are untouched. -/
def rowUpdate (uid : Nat) (upd : UserUpdate) (u : User) : User :=
  if u.id == uid then applyUpdate upd u else u

/-- `DB.update_user` from `db.py`: first calls `find_user_by(id=user_id)`,
which raises `NoResultFound` (modelled as `none`) when the id is absent; then
updates every row matching `User.id == user_id`. -/
def update_user (db : DBState) (uid : Nat) (upd : UserUpdate) : Option DBState :=
  match find_user_by_id db uid with
  | none => none
  | some _ => some (db.map (rowUpdate uid upd))

/-- `_hash_password` from `auth.py`: `bcrypt.hashpw(password.encode("utf-8"),
bcrypt.gensalt())`, salt threaded explicitly. -/
def _hash_password (password : String) (salt : Nat) : HashBlob :=
  hashpw password salt

/-- `Auth.register_user`: looks up by email; on `NoResultFound` adds the user
with the hashed password; if the lookup succeeds, raises
`ValueError("User <email> already exists")`. Returns the result paired with
the resulting store (unchanged when the error is raised). -/
def register_user (db : DBState) (salt : Nat) (email password : String) :
    Except PyErr User × DBState :=
  match find_user_by_email db email with
  | some _ => (.error (.valueError ("User " ++ email ++ " already exists")), db)
  | none =>
    let r := add_user db email (_hash_password password salt)
    (.ok r.1, r.2)

/-- `Auth.valid_login`: looks up by email, returning `False` on
`NoResultFound`; otherwise returns `bcrypt.checkpw(password, stored hash)`
(whose exception on a malformed stored hash would propagate). -/
def valid_login (db : DBState) (email password : String) : Except PyErr Bool :=
  match find_user_by_email db email with
  | none => .ok false
  | some u => checkpw password u.hashed_password

/-- `Auth.create_session`: looks up by email, returning `None` on
`NoResultFound`; otherwise generates a session id (the `fresh` argument) and
stores it via `update_user(user.id, session_id=fresh)`. -/
def create_session (db : DBState) (fresh : String) (email : String) :
    Except PyErr (Option String) × DBState :=
  match find_user_by_email db email with
  | none => (.ok none, db)
  | some u =>
    match update_user db u.id (sessionUpd (some fresh)) with
    | none => (.error .noResultFound, db)
    | some db2 => (.ok (some fresh), db2)

/-- `Auth.get_user_from_session_id`: returns `None` immediately when the
session id is `None`, before any database access; otherwise looks up by
`session_id`, returning `None` on `NoResultFound`. -/
def get_user_from_session_id (db : DBState) (session_id : Option String) : Option User :=
  match session_id with
  | none => none
  | some s => find_user_by_sid db s

/-- `Auth.destroy_session`: returns immediately when `user_id` is `None`;
otherwise `update_user(user_id, session_id=None)` (whose `NoResultFound` for
an absent id would propagate). -/
def destroy_session (db : DBState) (user_id : Option Nat) :
    Except PyErr Unit × DBState :=
  match user_id with
  | none => (.ok (), db)
  | some uid =>
    match update_user db uid (sessionUpd none) with
    | none => (.error .noResultFound, db)
    | some db2 => (.ok (), db2)

/-- `Auth.get_reset_password_token`: looks up by email, raising
`ValueError("User not found")` on `NoResultFound`; otherwise generates a
reset token (the `fresh` argument) and stores it. -/
def get_reset_password_token (db : DBState) (fresh : String) (email : String) :
    Except PyErr String × DBState :=
  match find_user_by_email db email with
  | none => (.error (.valueError "User not found"), db)
  | some u =>
    match update_user db u.id (resetUpd (some fresh)) with
    | none => (.error .noResultFound, db)
    | some db2 => (.ok fresh, db2)

/-- `Auth.update_password`: looks up by `reset_token`, raising
`ValueError("Invalid reset token")` on `NoResultFound`; otherwise stores the
new password hash and clears the reset token in the same `update_user`
call. -/
def update_password (db : DBState) (salt : Nat) (reset_token password : String) :
    Except PyErr Unit × DBState :=
  match find_user_by_reset db reset_token with
  | none => (.error (.valueError "Invalid reset token"), db)
  | some u =>
    match update_user db u.id (passwordResetUpd (_hash_password password salt)) with
    | none => (.error .noResultFound, db)
    | some db2 => (.ok (), db2)

/-- The email-uniqueness invariant of spec section 3: no two rows share an
email. -/
def uniqueEmails (db : DBState) : Prop :=
  db.Pairwise (fun a b => a.email ≠ b.email)

/-- Primary-key integrity: no two rows share an id. -/
def uniqueIds (db : DBState) : Prop :=
  db.Pairwise (fun a b => a.id ≠ b.id)

/-- A sample store with one registered, logged-out user, used to instantiate
the universally quantified theorems below. -/
def sampleUser : User :=
  { id := 1, email := "a@x.com", hashed_password := .bcrypt 0 "pw1" }

/-- The sample store holding just `sampleUser`. -/
def sampleDB : DBState := [sampleUser]

/-- Two members of a list pairwise-distinguished by a field are equal as soon
as the field agrees. -/
theorem eq_of_pairwise_ne {α β : Type} {f : α → β} :
    ∀ {l : List α} {u v : α}, l.Pairwise (fun a b => f a ≠ f b) →
      u ∈ l → v ∈ l → f u = f v → u = v := by
  intro l
  induction l with
  | nil => intro u v _ hu _ _; simp at hu
  | cons a t ih =>
    intro u v h hu hv hf
    rw [List.pairwise_cons] at h
    rcases List.mem_cons.mp hu with rfl | hu'
    · rcases List.mem_cons.mp hv with rfl | hv'
      · rfl
      · exact absurd hf (h.1 v hv')
    · rcases List.mem_cons.mp hv with rfl | hv'
      · exact absurd hf.symm (h.1 u hu')
      · exact ih h.2 hu' hv' hf

/-- In a list pairwise-distinguished by a field, `find?` on that field
returns the (unique) member carrying the sought value. -/
theorem find?_field_eq_self {α β : Type} [BEq β] [LawfulBEq β] {f : α → β} {x : β} :
    ∀ {l : List α} {u : α}, l.Pairwise (fun a b => f a ≠ f b) → u ∈ l → f u = x →
      l.find? (fun v => f v == x) = some u := by
  intro l
  induction l with
  | nil => intro u _ hu _; simp at hu
  | cons a t ih =>
    intro u h hu hx
    rw [List.pairwise_cons] at h
    by_cases hfa : f a = x
    · rw [List.find?_cons_of_pos _ (by simp [hfa])]
      rcases List.mem_cons.mp hu with rfl | hu'
      · rfl
      · exact absurd (hfa.trans hx.symm) (h.1 u hu')
    · rw [List.find?_cons_of_neg _ (by simp [hfa])]
      rcases List.mem_cons.mp hu with rfl | hu'
      · exact absurd hx hfa
      · exact ih h.2 hu' hx

/-- `find?` after a `map` agrees with mapping the result of `find?` for a
predicate that commutes with the mapped function on every member. -/
theorem find?_map_congr {α : Type} {g : α → α} {q r : α → Bool} :
    ∀ {l : List α}, (∀ u ∈ l, q (g u) = r u) →
      (l.map g).find? q = (l.find? r).map g := by
  intro l
  induction l with
  | nil => intro _; rfl
  | cons a t ih =>
    intro h
    have ha : q (g a) = r a := h a (by simp)
    by_cases hr : r a = true
    · rw [List.map_cons, List.find?_cons_of_pos _ (ha.trans hr),
        List.find?_cons_of_pos _ hr]
      rfl
    · rw [List.map_cons, List.find?_cons_of_neg _ (by rw [ha]; exact hr),
        List.find?_cons_of_neg _ hr]
      exact ih (fun u hu => h u (by simp [hu]))

/-- `find_user_by_id` returns the member itself when ids are unique. -/
theorem find_user_by_id_self {db : DBState} {u : User}
    (hids : uniqueIds db) (hmem : u ∈ db) :
    find_user_by_id db u.id = some u :=
  find?_field_eq_self (f := fun v : User => v.id) hids hmem rfl

/-- `find_user_by_email` returns the member itself when emails are unique. -/
theorem find_user_by_email_self {db : DBState} {u : User}
    (hmails : uniqueEmails db) (hmem : u ∈ db) :
    find_user_by_email db u.email = some u :=
  find?_field_eq_self (f := fun v : User => v.email) hmails hmem rfl

/-- `applyUpdate` never touches the `id` column. -/
theorem applyUpdate_id (upd : UserUpdate) (u : User) :
    (applyUpdate upd u).id = u.id := rfl

/-- `applyUpdate` never touches the `email` column. -/
theorem applyUpdate_email (upd : UserUpdate) (u : User) :
    (applyUpdate upd u).email = u.email := rfl

/-- C10: an absent session token never resolves to a user.
`get_user_from_session_id(None)` returns `None` before any store lookup, for
every store — in particular for a store that holds a logged-out identity,
whose `session_id` column is itself `None`. -/
theorem none_session_resolves_to_none (db : DBState) (u : User)
    (hmem : u ∈ db) (hout : u.session_id = none) :
    get_user_from_session_id db none = none := rfl

/-- Witness for C10 on the concrete sample store, whose single user is
logged out (`session_id = none`). -/
theorem none_session_resolves_to_none_witness :
    get_user_from_session_id sampleDB none = none :=
  none_session_resolves_to_none sampleDB sampleUser (by decide) (by decide)

/-- C4: password hashing correctness. Verifying `p1` against `hash(p1)`
succeeds (for both `encrypt_password.is_valid` and the auth service's
`bcrypt.checkpw` on `_hash_password`), and verifying a different password
`p2` against `hash(p1)` fails. -/
theorem hash_password_verify (salt : Nat) (p1 p2 : String) (hne : p1 ≠ p2) :
    is_valid (hash_password p1 salt) p1 = .ok true ∧
    checkpw p1 (_hash_password p1 salt) = .ok true ∧
    is_valid (hash_password p1 salt) p2 = .ok false := by
  refine ⟨by simp [is_valid, hash_password, hashpw, checkpw],
    by simp [_hash_password, hashpw, checkpw], ?_⟩
  simp only [is_valid, hash_password, hashpw, checkpw]
  simp [hne]

/-- Witness for C4 at concrete distinct passwords. -/
theorem hash_password_verify_witness :
    is_valid (hash_password "pw-one" 3) "pw-one" = .ok true ∧
    checkpw "pw-one" (_hash_password "pw-one" 3) = .ok true ∧
    is_valid (hash_password "pw-one" 3) "pw-two" = .ok false :=
  hash_password_verify 3 "pw-one" "pw-two" (by decide)

/-- C5: registration with an already-registered email raises
`ValueError("User <email> already exists")` and leaves the store — hence the
existing identity's password hash and every other field — untouched, adding
no record. -/
theorem register_duplicate_atomic (db : DBState) (salt : Nat)
    (email password : String) (u : User)
    (hu : find_user_by_email db email = some u) :
    register_user db salt email password =
      (.error (.valueError ("User " ++ email ++ " already exists")), db) := by
  simp [register_user, hu]

/-- Witness for C5: re-registering the sample user's email fails and
returns the sample store unchanged. -/
theorem register_duplicate_atomic_witness :
    register_user sampleDB 7 "a@x.com" "pw2" =
      (.error (.valueError ("User " ++ "a@x.com" ++ " already exists")), sampleDB) :=
  register_duplicate_atomic sampleDB 7 "a@x.com" "pw2" sampleUser (by decide)

/-- C2: non-enumeration at login. An email matching no record and an
existing email with a wrong password produce the identical observable
result: `valid_login` returns `False` in both cases. -/
theorem valid_login_non_enumeration (db : DBState) (e1 p1 e2 p2 pw0 : String)
    (s : Nat) (u : User)
    (h1 : find_user_by_email db e1 = none)
    (h2 : find_user_by_email db e2 = some u)
    (hwf : u.hashed_password = .bcrypt s pw0)
    (hwrong : p2 ≠ pw0) :
    valid_login db e1 p1 = .ok false ∧ valid_login db e2 p2 = .ok false ∧
    valid_login db e1 p1 = valid_login db e2 p2 := by
  have ha : valid_login db e1 p1 = .ok false := by simp [valid_login, h1]
  have hb : valid_login db e2 p2 = .ok false := by
    simp only [valid_login, h2, hwf, checkpw]
    simp
    exact fun h => hwrong h.symm
  exact ⟨ha, hb, ha.trans hb.symm⟩

/-- Witness for C2 on the sample store: unknown email and wrong password
are indistinguishable. -/
theorem valid_login_non_enumeration_witness :
    valid_login sampleDB "who@x.com" "anything" = .ok false ∧
    valid_login sampleDB "a@x.com" "wrong-pw" = .ok false ∧
    valid_login sampleDB "who@x.com" "anything" =
      valid_login sampleDB "a@x.com" "wrong-pw" :=
  valid_login_non_enumeration sampleDB "who@x.com" "anything" "a@x.com"
    "wrong-pw" "pw1" 0 sampleUser (by decide) (by decide) (by decide) (by decide)

/-- C6 counterexample: `is_valid` applied to a byte sequence that is not a
well-formed bcrypt hash does not return `false` — the bcrypt library's
`ValueError("Invalid salt")` propagates out of it. -/
theorem is_valid_malformed_raises :
    is_valid (.malformed "not-a-bcrypt-hash") "pw" =
      .error (.valueError "Invalid salt") := rfl

/-- C6 amended: on every well-formed bcrypt blob, `is_valid` totally returns
a boolean — `false` whenever the password does not match — and never raises;
on a malformed blob the library error propagates. -/
theorem is_valid_total_on_wellformed (salt : Nat) (stored p raw : String) :
    is_valid (.bcrypt salt stored) p = .ok (stored == p) ∧
    is_valid (.malformed raw) p = .error (.valueError "Invalid salt") :=
  ⟨rfl, rfl⟩

/-- A request path or exemption pattern, as its character sequence (Python
strings are indexed character sequences; `p[-1]` is `getLast?`, `p[:-1]` is
`dropLast`, `+ "/"` is `++ [chr /]`). -/
abbrev Path := List Char

/-- `Auth.require_auth` from `0x02-Session_authentication/api/v1/auth/auth.py`.
The source first returns `True` when `path` or `excluded_paths` is `None` or
the list is empty (the `None` guards are outside this model: `app.py` always
passes both); it then appends a trailing slash to `path` when missing
(`path[-1]` — on the empty path the Python code would raise `IndexError`, so
the theorems below restrict to nonempty paths); wildcard patterns (ending in
`*`) exempt by prefix of the normalized path; finally an exact pattern
exempts by string membership of the normalized path in `excluded_paths`. -/
def require_auth (path : Path) (excluded_paths : List Path) : Bool :=
  if excluded_paths.isEmpty then true
  else
    let np := if path.getLast? == some '/' then path else path ++ ['/']
    if excluded_paths.any (fun i => (i.getLast? == some '*') && i.dropLast.isPrefixOf np)
    then false
    else if np ∈ excluded_paths then false
    else true

/-- Python truthiness of an optional string: `None` and the empty string are
falsy, any other string is truthy (`if not header and not cookie`). -/
def truthy (s : Option String) : Bool :=
  match s with
  | none => false
  | some v => v != ""

/-- The narrow view of a Flask request used by the gate: its path, its
`Authorization` header value (absent when the header is missing), and the
value of the session cookie named by `SESSION_NAME` (absent when missing). -/
structure Request where
  path : Path
  authorization : Option String
  cookie : Option String

/-- `Auth.authorization_header`: `None` for a `None` request, else
`request.headers.get("Authorization")`. -/
def authorization_header (req : Option Request) : Option String :=
  match req with
  | none => none
  | some r => r.authorization

/-- `Auth.session_cookie`: `None` for a `None` request, else
`request.cookies.get(getenv("SESSION_NAME"))`. -/
def session_cookie (req : Option Request) : Option String :=
  match req with
  | none => none
  | some r => r.cookie

/-- Outcome of the `before_request` hook in `api/v1/app.py`: let the request
proceed, or abort with 401, or abort with 403. -/
inductive GateOutcome where
  | proceed
  | abort401
  | abort403
  deriving DecidableEq, Repr

/-- `before_request` from `api/v1/app.py`, for a configured auth object: if
the path does not require auth, proceed; else if neither the authorization
header nor the session cookie is truthy, abort 401; else if `current_user`
resolves to `None`, abort 403; else attach the user and proceed. The
identity resolution `auth.current_user(request)` is passed as the
`current_user` argument. -/
def before_request (excluded_paths : List Path) (req : Request)
    (current_user : Option Nat) : GateOutcome :=
  if !(require_auth req.path excluded_paths) then .proceed
  else if !(truthy (authorization_header (some req)))
      && !(truthy (session_cookie (some req))) then .abort401
  else if current_user.isNone then .abort403
  else .proceed

/-- C7: on a gated path, the gate aborts 401 exactly when no credential
material is presented (neither a truthy authorization header nor a truthy
session cookie), and aborts 403 exactly when credential material is
presented but does not resolve to a user. -/
theorem gate_distinguishes_absent_from_bad (excluded_paths : List Path)
    (req : Request) (cu : Option Nat)
    (hgate : require_auth req.path excluded_paths = true) :
    (before_request excluded_paths req cu = .abort401 ↔
      (truthy req.authorization = false ∧ truthy req.cookie = false)) ∧
    (before_request excluded_paths req cu = .abort403 ↔
      ((truthy req.authorization = true ∨ truthy req.cookie = true) ∧
        cu = none)) := by
  unfold before_request authorization_header session_cookie
  rw [hgate]
  cases ha : truthy req.authorization <;> cases hc : truthy req.cookie <;>
    cases cu <;> simp

/-- Witness for C7: a gated request with no header and no cookie is a 401,
and the same request is not a 403. -/
theorem gate_distinguishes_absent_from_bad_witness :
    (before_request [] ⟨['/', 'p'], none, none⟩ none = .abort401 ↔
      (truthy none = false ∧ truthy none = false)) ∧
    (before_request [] ⟨['/', 'p'], none, none⟩ none = .abort403 ↔
      ((truthy none = true ∨ truthy none = true) ∧
        (none : Option Nat) = none)) :=
  gate_distinguishes_absent_from_bad [] ⟨['/', 'p'], none, none⟩ none (by decide)

/-- C8 counterexample: an exact exemption pattern written without a trailing
slash does not exempt the same paths as the slashed form. The pattern `/x`
exempts nothing (the normalized path always ends in a slash), while the
pattern `/x/` exempts the path `/x`. -/
theorem require_auth_pattern_slash_matters :
    require_auth ['/', 'x'] [['/', 'x']] = true ∧
    require_auth ['/', 'x'] [['/', 'x', '/']] = false := by decide

/-- C8 amended: the path side is normalized — for a nonempty path not
already ending in a slash, `require_auth` answers identically on the path
and on the path with a trailing slash appended — but exemption patterns are
not normalized: an exact pattern ending in neither a slash nor a wildcard
star exempts no path at all. -/
theorem require_auth_trailing_slash (p : Path) (l : List Path) (pat : Path)
    (hp : p ≠ []) (hps : p.getLast? ≠ some '/')
    (hpat : pat.getLast? ≠ some '/') (hstar : pat.getLast? ≠ some '*') :
    require_auth p l = require_auth (p ++ ['/']) l ∧
    require_auth p [pat] = true := by
  constructor
  · unfold require_auth
    have e1 : (p.getLast? == some '/') = false := by
      simp only [beq_eq_false_iff_ne, ne_eq]
      exact hps
    have e2 : ((p ++ ['/']).getLast? == some '/') = true := by
      simp [List.getLast?_concat]
    rw [e1, e2]
    simp
  · have hstar' : (pat.getLast? == some '*') = false := by
      simp only [beq_eq_false_iff_ne, ne_eq]; exact hstar
    by_cases h : p.getLast? = some '/'
    · have hb : (p.getLast? == some '/') = true := by simp [h]
      unfold require_auth
      simp [hb, hstar']
      intro hc
      exact hpat (hc ▸ h)
    · have hb : (p.getLast? == some '/') = false := by
        simp only [beq_eq_false_iff_ne, ne_eq]; exact h
      unfold require_auth
      simp [hb, hstar']
      intro hc
      exact hpat (hc ▸ List.getLast?_concat p)

/-- Witness for C8 amended: normalization equivalence at `/x` versus `/x/`,
and the slashless exact pattern `/a` exempting nothing at path `/y`. -/
theorem require_auth_trailing_slash_witness :
    (require_auth ['/', 'x'] [['/', 'a', '/']] =
      require_auth ['/', 'x', '/'] [['/', 'a', '/']]) ∧
    require_auth ['/', 'x'] [['/', 'a']] = true :=
  require_auth_trailing_slash ['/', 'x'] [['/', 'a', '/']] ['/', 'a']
    (by decide) (by decide) (by decide) (by decide)


/-- `rowUpdate` never touches the `id` column of any row. -/
theorem rowUpdate_id (uid : Nat) (upd : UserUpdate) (u : User) :
    (rowUpdate uid upd u).id = u.id := by
  unfold rowUpdate
  by_cases h : (u.id == uid) = true
  · simp [h, applyUpdate_id]
  · simp only [Bool.not_eq_true] at h
    simp [h]

/-- `rowUpdate` never touches the `email` column of any row. -/
theorem rowUpdate_email (uid : Nat) (upd : UserUpdate) (u : User) :
    (rowUpdate uid upd u).email = u.email := by
  unfold rowUpdate
  by_cases h : (u.id == uid) = true
  · simp [h, applyUpdate_email]
  · simp only [Bool.not_eq_true] at h
    simp [h]

/-- A successful `update_user` call rewrites exactly the rows whose id
matches, through `applyUpdate`. -/
theorem update_user_map {db db2 : DBState} {uid : Nat} {upd : UserUpdate}
    (h : update_user db uid upd = some db2) :
    db2 = db.map (rowUpdate uid upd) := by
  unfold update_user at h
  cases hf : find_user_by_id db uid <;> rw [hf] at h
  · simp at h
  · injection h with h
    exact h.symm

/-- Mapping an email-preserving row transformation over the store preserves
email uniqueness. -/
theorem uniqueEmails_map {g : User → User} (hg : ∀ u, (g u).email = u.email)
    {db : DBState} (h : uniqueEmails db) : uniqueEmails (db.map g) := by
  unfold uniqueEmails at h ⊢
  rw [List.pairwise_map]
  exact h.imp (fun hab => by rw [hg, hg]; exact hab)

/-- A successful `update_user` preserves email uniqueness: no update touches
the `email` column. -/
theorem update_user_uniqueEmails {db db2 : DBState} {uid : Nat}
    {upd : UserUpdate} (h : uniqueEmails db)
    (hu : update_user db uid upd = some db2) : uniqueEmails db2 := by
  rw [update_user_map hu]
  exact uniqueEmails_map (fun u => rowUpdate_email uid upd u) h

/-- C9: starting from a store with pairwise-distinct emails, every Auth
Authority operation — `register_user`, `create_session`, `destroy_session`,
`get_reset_password_token`, `update_password` — preserves email
uniqueness. -/
theorem auth_ops_preserve_unique_emails (db : DBState) (salt : Nat)
    (e p f tok np : String) (uid : Option Nat) (h : uniqueEmails db) :
    uniqueEmails (register_user db salt e p).2 ∧
    uniqueEmails (create_session db f e).2 ∧
    uniqueEmails (destroy_session db uid).2 ∧
    uniqueEmails (get_reset_password_token db f e).2 ∧
    uniqueEmails (update_password db salt tok np).2 := by
  refine ⟨?_, ?_, ?_, ?_, ?_⟩
  · cases hf : find_user_by_email db e with
    | some u => simpa [register_user, hf] using h
    | none =>
      simp only [register_user, hf, add_user]
      unfold uniqueEmails
      rw [List.pairwise_append]
      refine ⟨h, List.pairwise_singleton _ _, ?_⟩
      intro a ha b hb
      simp only [List.mem_singleton] at hb
      subst hb
      unfold find_user_by_email at hf
      have := List.find?_eq_none.mp hf a ha
      simpa using this
  · cases hf : find_user_by_email db e with
    | none => simpa [create_session, hf] using h
    | some u =>
      cases hupd : update_user db u.id (sessionUpd (some f)) with
      | none => simpa [create_session, hf, hupd] using h
      | some db2 =>
        simpa [create_session, hf, hupd] using update_user_uniqueEmails h hupd
  · cases uid with
    | none => simpa [destroy_session] using h
    | some i =>
      cases hupd : update_user db i (sessionUpd none) with
      | none => simpa [destroy_session, hupd] using h
      | some db2 =>
        simpa [destroy_session, hupd] using update_user_uniqueEmails h hupd
  · cases hf : find_user_by_email db e with
    | none => simpa [get_reset_password_token, hf] using h
    | some u =>
      cases hupd : update_user db u.id (resetUpd (some f)) with
      | none => simpa [get_reset_password_token, hf, hupd] using h
      | some db2 =>
        simpa [get_reset_password_token, hf, hupd] using
          update_user_uniqueEmails h hupd
  · cases hf : find_user_by_reset db tok with
    | none => simpa [update_password, hf] using h
    | some u =>
      cases hupd : update_user db u.id (passwordResetUpd (_hash_password np salt)) with
      | none => simpa [update_password, hf, hupd] using h
      | some db2 =>
        simpa [update_password, hf, hupd] using update_user_uniqueEmails h hupd

/-- Witness for C9 on the concrete sample store. -/
theorem auth_ops_preserve_unique_emails_witness :
    uniqueEmails (register_user sampleDB 7 "b@x.com" "pw2").2 ∧
    uniqueEmails (create_session sampleDB "sess-9" "b@x.com").2 ∧
    uniqueEmails (destroy_session sampleDB (some 1)).2 ∧
    uniqueEmails (get_reset_password_token sampleDB "sess-9" "b@x.com").2 ∧
    uniqueEmails (update_password sampleDB 7 "rt-9" "np").2 :=
  auth_ops_preserve_unique_emails sampleDB 7 "b@x.com" "pw2" "sess-9" "rt-9"
    "np" (some 1) (List.pairwise_singleton _ _)

/-- C1: session round-trip and invalidation. For a registered user (ids
unique, fresh token unused), `create_session` returns the fresh token and
`get_user_from_session_id` on that token resolves to the same identity (same
id and email); after `destroy_session(user.id)`, the old token resolves to
`None`. -/
theorem session_roundtrip (db : DBState) (email fresh : String) (u : User)
    (hids : uniqueIds db)
    (hu : find_user_by_email db email = some u)
    (hfresh : ∀ v ∈ db, v.session_id ≠ some fresh) :
    ∃ db2 u2, create_session db fresh email = (.ok (some fresh), db2) ∧
      get_user_from_session_id db2 (some fresh) = some u2 ∧
      u2.id = u.id ∧ u2.email = u.email ∧
      ∃ db3, destroy_session db2 (some u.id) = (.ok (), db3) ∧
        get_user_from_session_id db3 (some fresh) = none := by
  have hmem : u ∈ db := List.mem_of_find?_eq_some hu
  have hfid : db.find? (fun v => v.id == u.id) = some u :=
    find_user_by_id_self hids hmem
  have hupd1 : update_user db u.id (sessionUpd (some fresh)) =
      some (db.map (rowUpdate u.id (sessionUpd (some fresh)))) := by
    unfold update_user find_user_by_id
    rw [hfid]
  have hcs : create_session db fresh email =
      (.ok (some fresh), db.map (rowUpdate u.id (sessionUpd (some fresh)))) := by
    simp only [create_session, hu, hupd1]
  have hcong1 : ∀ v ∈ db,
      ((rowUpdate u.id (sessionUpd (some fresh)) v).session_id == some fresh) =
        (v.id == u.id) := by
    intro v hv
    unfold rowUpdate
    by_cases hid : (v.id == u.id) = true
    · simp [hid, applyUpdate, sessionUpd]
    · simp only [Bool.not_eq_true] at hid
      simp [hid, hfresh v hv]
  have hget : get_user_from_session_id
      (db.map (rowUpdate u.id (sessionUpd (some fresh)))) (some fresh) =
      some (applyUpdate (sessionUpd (some fresh)) u) := by
    show find_user_by_sid _ fresh = _
    unfold find_user_by_sid
    rw [find?_map_congr hcong1, hfid]
    simp [rowUpdate]
  have hcongid : ∀ v ∈ db,
      ((rowUpdate u.id (sessionUpd (some fresh)) v).id == u.id) =
        (v.id == u.id) := by
    intro v _
    rw [rowUpdate_id]
  have hupd2 : update_user (db.map (rowUpdate u.id (sessionUpd (some fresh))))
      u.id (sessionUpd none) =
      some ((db.map (rowUpdate u.id (sessionUpd (some fresh)))).map
        (rowUpdate u.id (sessionUpd none))) := by
    unfold update_user find_user_by_id
    rw [find?_map_congr hcongid, hfid]
    rfl
  have hds : destroy_session (db.map (rowUpdate u.id (sessionUpd (some fresh))))
      (some u.id) =
      (.ok (), (db.map (rowUpdate u.id (sessionUpd (some fresh)))).map
        (rowUpdate u.id (sessionUpd none))) := by
    simp only [destroy_session, hupd2]
  have hget2 : get_user_from_session_id
      ((db.map (rowUpdate u.id (sessionUpd (some fresh)))).map
        (rowUpdate u.id (sessionUpd none))) (some fresh) = none := by
    show find_user_by_sid _ fresh = none
    unfold find_user_by_sid
    rw [List.find?_eq_none]
    intro x hx
    rw [List.map_map] at hx
    rcases List.mem_map.mp hx with ⟨v, hv, rfl⟩
    show ¬(((rowUpdate u.id (sessionUpd none) ∘
        rowUpdate u.id (sessionUpd (some fresh))) v).session_id ==
        some fresh) = true
    unfold Function.comp rowUpdate
    by_cases hid : (v.id == u.id) = true
    · simp [hid, applyUpdate, sessionUpd]
    · simp only [Bool.not_eq_true] at hid
      simp [hid, hfresh v hv]
  exact ⟨_, _, hcs, hget, rfl, rfl, _, hds, hget2⟩

/-- Witness for C1 on the concrete sample store. -/
theorem session_roundtrip_witness :
    ∃ db2 u2, create_session sampleDB "sess-1" "a@x.com" =
        (.ok (some "sess-1"), db2) ∧
      get_user_from_session_id db2 (some "sess-1") = some u2 ∧
      u2.id = sampleUser.id ∧ u2.email = sampleUser.email ∧
      ∃ db3, destroy_session db2 (some sampleUser.id) = (.ok (), db3) ∧
        get_user_from_session_id db3 (some "sess-1") = none :=
  session_roundtrip sampleDB "a@x.com" "sess-1" sampleUser
    (List.pairwise_singleton _ _) (by decide) (by decide)

/-- A sample store whose single user has a pending reset token. -/
def sampleResetUser : User :=
  { id := 2, email := "b@x.com", hashed_password := .bcrypt 0 "old-pw",
    reset_token := some "rt-1" }

/-- The sample store holding just `sampleResetUser`. -/
def sampleResetDB : DBState := [sampleResetUser]

/-- C3: reset tokens are single-use. A successful `update_password` stores
the new hash and clears the reset token in the same update; the same token
then fails with `ValueError("Invalid reset token")`, while `valid_login`
with the new password succeeds. -/
theorem reset_token_single_use (db : DBState) (salt salt2 : Nat)
    (tok newpw pw2 : String) (u : User)
    (hids : uniqueIds db) (hmails : uniqueEmails db)
    (hu : find_user_by_reset db tok = some u)
    (honly : ∀ v ∈ db, v.reset_token = some tok → v = u) :
    ∃ db2, update_password db salt tok newpw = (.ok (), db2) ∧
      applyUpdate (passwordResetUpd (_hash_password newpw salt)) u ∈ db2 ∧
      (applyUpdate (passwordResetUpd (_hash_password newpw salt)) u).hashed_password =
        _hash_password newpw salt ∧
      (applyUpdate (passwordResetUpd (_hash_password newpw salt)) u).reset_token =
        none ∧
      (update_password db2 salt2 tok pw2).1 =
        .error (.valueError "Invalid reset token") ∧
      valid_login db2 u.email newpw = .ok true := by
  have hmem : u ∈ db := List.mem_of_find?_eq_some hu
  have hfid : db.find? (fun v => v.id == u.id) = some u :=
    find_user_by_id_self hids hmem
  have hupd : update_user db u.id (passwordResetUpd (_hash_password newpw salt)) =
      some (db.map (rowUpdate u.id (passwordResetUpd (_hash_password newpw salt)))) := by
    unfold update_user find_user_by_id
    rw [hfid]
  have h1 : update_password db salt tok newpw =
      (.ok (), db.map (rowUpdate u.id (passwordResetUpd (_hash_password newpw salt)))) := by
    simp only [update_password, hu, hupd]
  have hgu : rowUpdate u.id (passwordResetUpd (_hash_password newpw salt)) u =
      applyUpdate (passwordResetUpd (_hash_password newpw salt)) u := by
    simp [rowUpdate]
  have hgumem : applyUpdate (passwordResetUpd (_hash_password newpw salt)) u ∈
      db.map (rowUpdate u.id (passwordResetUpd (_hash_password newpw salt))) :=
    hgu ▸ List.mem_map_of_mem _ hmem
  have hfind2 : find_user_by_reset
      (db.map (rowUpdate u.id (passwordResetUpd (_hash_password newpw salt))))
      tok = none := by
    unfold find_user_by_reset
    rw [List.find?_eq_none]
    intro x hx
    rcases List.mem_map.mp hx with ⟨v, hv, rfl⟩
    unfold rowUpdate
    by_cases hid : (v.id == u.id) = true
    · simp [hid, applyUpdate, passwordResetUpd]
    · simp only [Bool.not_eq_true] at hid
      simp only [hid, Bool.false_eq_true, if_false, beq_iff_eq]
      intro hc
      have hvu := honly v hv hc
      rw [hvu] at hid
      simp at hid
  have h2 : (update_password
      (db.map (rowUpdate u.id (passwordResetUpd (_hash_password newpw salt))))
      salt2 tok pw2).1 = .error (.valueError "Invalid reset token") := by
    simp only [update_password, hfind2]
  have hcongemail : ∀ v ∈ db,
      ((rowUpdate u.id (passwordResetUpd (_hash_password newpw salt)) v).email ==
        u.email) = (v.email == u.email) := by
    intro v _
    rw [rowUpdate_email]
  have hfemail : db.find? (fun v => v.email == u.email) = some u :=
    find_user_by_email_self hmails hmem
  have h3 : valid_login
      (db.map (rowUpdate u.id (passwordResetUpd (_hash_password newpw salt))))
      u.email newpw = .ok true := by
    have hfm : find_user_by_email
        (db.map (rowUpdate u.id (passwordResetUpd (_hash_password newpw salt))))
        u.email =
        some (rowUpdate u.id (passwordResetUpd (_hash_password newpw salt)) u) := by
      unfold find_user_by_email
      rw [find?_map_congr hcongemail, hfemail]
      rfl
    simp only [valid_login, hfm]
    simp [rowUpdate, applyUpdate, passwordResetUpd, _hash_password, hashpw, checkpw]
  exact ⟨_, h1, hgumem, rfl, rfl, h2, h3⟩

/-- Witness for C3 on the concrete sample store with a pending reset. -/
theorem reset_token_single_use_witness :
    ∃ db2, update_password sampleResetDB 5 "rt-1" "new-pw" = (.ok (), db2) ∧
      applyUpdate (passwordResetUpd (_hash_password "new-pw" 5)) sampleResetUser ∈ db2 ∧
      (applyUpdate (passwordResetUpd (_hash_password "new-pw" 5)) sampleResetUser).hashed_password =
        _hash_password "new-pw" 5 ∧
      (applyUpdate (passwordResetUpd (_hash_password "new-pw" 5)) sampleResetUser).reset_token =
        none ∧
      (update_password db2 6 "rt-1" "other").1 =
        .error (.valueError "Invalid reset token") ∧
      valid_login db2 sampleResetUser.email "new-pw" = .ok true :=
  reset_token_single_use sampleResetDB 5 6 "rt-1" "new-pw" "other"
    sampleResetUser (List.pairwise_singleton _ _) (List.pairwise_singleton _ _)
    (by decide) (by decide)

end AlxAuth
